import Mathlib

/-
  Shallow embedding of src/eval/setsid.c: a small utility that forks,
  detaches the child into a new session via setsid, records the session id
  (queried with getsid) into a file, and replaces the child's image with a
  target command via execvp.

  The operating system's responses to the syscalls are modelled by an
  oracle structure `OS`; a single execution of one process (the parent
  continuation, the child continuation, or the failed-fork continuation,
  selected by the oracle's fork result exactly as the C code branches on
  the return value of fork) is traced by `run`, which records the sequence
  of syscall events, the lines written to the two output streams, the exit
  code, and the state of the session file.
-/

namespace Setsid

/-- Model of printf's decimal digit emission: the character for digit d. -/
def digitChar (d : Nat) : Char := Char.ofNat (48 + d)

/-- Digits of n in base 10, most significant first, prepended to acc. -/
def natDecimalAux (n : Nat) (acc : List Char) : List Char :=
  if h : n < 10 then digitChar n :: acc
  else natDecimalAux (n / 10) (digitChar (n % 10) :: acc)
termination_by n
decreasing_by exact Nat.div_lt_self (by omega) (by omega)

/-- Decimal representation of a natural number, as printed by printf. -/
def natDecimal (n : Nat) : String := String.mk (natDecimalAux n [])

/-- Decimal representation of an int, as printed by printf with %d. -/
def intDecimal (i : Int) : String :=
  if i < 0 then "-" ++ natDecimal i.natAbs else natDecimal i.toNat

/-- Oracle for the outcomes of the system calls made by the program.
    `forkResult` is the value fork returns in the traced process
    (negative: failure; zero: this is the child; positive: this is the
    parent and the value is the child's pid). `setsidResult` and
    `getsidResult` are the return values of setsid and getsid (negative
    means failure, as the C code tests). The four file-step booleans say
    whether fopen returned non-NULL, fprintf returned non-negative,
    fflush returned zero, and fclose returned zero. `execOk` says whether
    execvp succeeds (in which case it does not return). `sysErrMsg` is
    the strerror text perror would append for the (single) failing call. -/
structure OS where
  forkResult : Int
  setsidResult : Int
  getsidResult : Int
  fopenOk : Bool
  fprintfOk : Bool
  fflushOk : Bool
  fcloseOk : Bool
  execOk : Bool
  sysErrMsg : String

/-- Syscall events, in the order the traced process performs them.
    `execCall file args pathSearch` records the execvp invocation: the
    file argument, the argument vector handed to the new image, and
    whether resolution searches the standard executable path (true for
    execvp). -/
inductive Ev where
  | forkCall
  | setsidCall
  | getsidCall
  | fopenCall
  | fprintfCall
  | fflushCall
  | fcloseCall
  | execCall (file : String) (args : List String) (pathSearch : Bool)
deriving DecidableEq

/-- State of the session file at the path argv[1] when the traced process
    ends. `unchanged`: the program never called fopen on it, so whatever
    was there before is untouched. `truncated`: opened for writing but
    nothing written. `incompleteWrite`: a write or flush failed, leaving
    unspecified partial content. `written c`: the file holds exactly c. -/
inductive FileState where
  | unchanged
  | truncated
  | incompleteWrite
  | written (content : String)
deriving DecidableEq

/-- Observable outcome of one traced process. `exitCode = none` means the
    process image was replaced (execvp succeeded, so the process never
    exits from this program's code). `fileOpen` says whether the stdio
    stream for the session file is still open at the end. -/
structure Result where
  events : List Ev
  stderrLines : List String
  stdoutLines : List String
  exitCode : Option Nat
  file : FileState
  fileOpen : Bool
deriving DecidableEq

/-- Model of perror(label): label, a colon and the system error text. -/
def perrorLine (label : String) (os : OS) : String :=
  label ++ ": " ++ os.sysErrMsg

/-- The usage diagnostic printed when fewer than two arguments follow the
    program name (from the fprintf at line 13 of setsid.c). -/
def usageLine (argv : List String) : String :=
  "usage: " ++ argv.getD 0 "" ++ " <session-file> <command> [args...]"

/-- Embedding of main from src/eval/setsid.c. The C code is a single
    linear sequence of early-return checks; each branch below corresponds
    to one return site (or to the successful execvp, which never returns). -/
def run (argv : List String) (os : OS) : Result :=
  -- if (argc < 3) { fprintf(stderr, usage); return 1; }
  if argv.length < 3 then
    { events := [], stderrLines := [usageLine argv], stdoutLines := [],
      exitCode := some 1, file := .unchanged, fileOpen := false }
  -- pid = fork(); if (pid < 0) { perror("fork"); return 1; }
  else if os.forkResult < 0 then
    { events := [.forkCall], stderrLines := [perrorLine "fork" os],
      stdoutLines := [], exitCode := some 1, file := .unchanged,
      fileOpen := false }
  -- if (pid > 0) { exit(0); }  (parent)
  else if 0 < os.forkResult then
    { events := [.forkCall], stderrLines := [], stdoutLines := [],
      exitCode := some 0, file := .unchanged, fileOpen := false }
  -- if (setsid() < 0) { perror("setsid"); return 1; }
  else if os.setsidResult < 0 then
    { events := [.forkCall, .setsidCall],
      stderrLines := [perrorLine "setsid" os], stdoutLines := [],
      exitCode := some 1, file := .unchanged, fileOpen := false }
  -- sid = getsid(0); if (sid < 0) { perror("getsid"); return 1; }
  else if os.getsidResult < 0 then
    { events := [.forkCall, .setsidCall, .getsidCall],
      stderrLines := [perrorLine "getsid" os], stdoutLines := [],
      exitCode := some 1, file := .unchanged, fileOpen := false }
  -- session_file = fopen(argv[1], "w"); if (NULL) { perror; return 1; }
  else if os.fopenOk = false then
    { events := [.forkCall, .setsidCall, .getsidCall, .fopenCall],
      stderrLines := [perrorLine "fopen session file" os], stdoutLines := [],
      exitCode := some 1, file := .unchanged, fileOpen := false }
  -- if (fprintf(file, "%d\n", sid) < 0) { perror; fclose; return 1; }
  else if os.fprintfOk = false then
    { events := [.forkCall, .setsidCall, .getsidCall, .fopenCall,
                 .fprintfCall, .fcloseCall],
      stderrLines := [perrorLine "fprintf session file" os],
      stdoutLines := [], exitCode := some 1, file := .incompleteWrite,
      fileOpen := false }
  -- if (fflush(file) != 0) { perror; fclose; return 1; }
  else if os.fflushOk = false then
    { events := [.forkCall, .setsidCall, .getsidCall, .fopenCall,
                 .fprintfCall, .fflushCall, .fcloseCall],
      stderrLines := [perrorLine "fflush session file" os],
      stdoutLines := [], exitCode := some 1, file := .incompleteWrite,
      fileOpen := false }
  -- if (fclose(file) != 0) { perror; return 1; }  (data already flushed)
  else if os.fcloseOk = false then
    { events := [.forkCall, .setsidCall, .getsidCall, .fopenCall,
                 .fprintfCall, .fflushCall, .fcloseCall],
      stderrLines := [perrorLine "fclose session file" os],
      stdoutLines := [], exitCode := some 1,
      file := .written (intDecimal os.getsidResult ++ "\n"),
      fileOpen := false }
  -- execvp(argv[2], &argv[2]); perror("execvp"); return 1;
  else if os.execOk then
    { events := [.forkCall, .setsidCall, .getsidCall, .fopenCall,
                 .fprintfCall, .fflushCall, .fcloseCall,
                 .execCall (argv.getD 2 "") (argv.drop 2) true],
      stderrLines := [], stdoutLines := [], exitCode := none,
      file := .written (intDecimal os.getsidResult ++ "\n"),
      fileOpen := false }
  else
    { events := [.forkCall, .setsidCall, .getsidCall, .fopenCall,
                 .fprintfCall, .fflushCall, .fcloseCall,
                 .execCall (argv.getD 2 "") (argv.drop 2) true],
      stderrLines := [perrorLine "execvp" os], stdoutLines := [],
      exitCode := some 1,
      file := .written (intDecimal os.getsidResult ++ "\n"),
      fileOpen := false }

/-- Whether the trace contains an execvp call. -/
def isExec : Ev → Bool
  | .execCall _ _ _ => true
  | _ => false

/-- Whether the traced process attempted process-image replacement. -/
def execAttempted (r : Result) : Bool := r.events.any isExec

/-- Number of fclose calls in a trace. -/
def closeCalls : List Ev → Nat
  | [] => 0
  | .fcloseCall :: rest => closeCalls rest + 1
  | _ :: rest => closeCalls rest

/-- An oracle in which every system call succeeds; the concrete session
    id 42 and child pid 7 are arbitrary. Used by witness instantiations. -/
def okOS : OS :=
  { forkResult := 0, setsidResult := 0, getsidResult := 42,
    fopenOk := true, fprintfOk := true, fflushOk := true,
    fcloseOk := true, execOk := true, sysErrMsg := "No error" }

/-- A concrete well-formed argument vector for witness instantiations. -/
def okArgv : List String := ["setsid", "sess.txt", "echo", "hello"]

/-- Oracle for the parent continuation: fork returned the child pid 7. -/
def parentOS : OS := { okOS with forkResult := 7 }

/-- Oracle in which fork fails. -/
def forkFailOS : OS :=
  { okOS with forkResult := -1, sysErrMsg := "Resource temporarily unavailable" }

/-- Oracle in which setsid fails in the child. -/
def setsidFailOS : OS :=
  { okOS with setsidResult := -1, sysErrMsg := "Operation not permitted" }

/-- Oracle in which fopen on the session file fails, as when its parent
    directory does not exist or is not writable. -/
def badOpenOS : OS :=
  { okOS with fopenOk := false, sysErrMsg := "No such file or directory" }

/-- Oracle in which everything up to the file write succeeds but execvp
    fails, as when the command does not resolve to an executable. -/
def noExecOS : OS :=
  { okOS with execOk := false, sysErrMsg := "No such file or directory" }

/-- Oracle in which fflush on the session file fails. -/
def flushFailOS : OS :=
  { okOS with fflushOk := false, sysErrMsg := "Input/output error" }

theorem digitChar_isDigit (d : Nat) (h : d < 10) :
    (digitChar d).isDigit = true := by
  interval_cases d <;> decide

theorem natDecimalAux_digits :
    ∀ (n : Nat) (acc : List Char), (∀ c ∈ acc, c.isDigit = true) →
      ∀ c ∈ natDecimalAux n acc, c.isDigit = true := by
  intro n
  induction n using Nat.strong_induction_on with
  | _ n ih =>
    intro acc hacc c hc
    rw [natDecimalAux] at hc
    split at hc
    · rcases List.mem_cons.mp hc with h | h
      · subst h; exact digitChar_isDigit n (by omega)
      · exact hacc c h
    · rename_i h10
      exact ih (n / 10) (Nat.div_lt_self (by omega) (by omega))
        (digitChar (n % 10) :: acc)
        (by
          intro c hc
          rcases List.mem_cons.mp hc with h | h
          · subst h; exact digitChar_isDigit _ (Nat.mod_lt n (by omega))
          · exact hacc c h)
        c hc

/-- Every character printed for a natural number is a decimal digit
    (in particular natDecimal contains no newline). -/
theorem natDecimal_digits (n : Nat) :
    ∀ c ∈ (natDecimal n).data, c.isDigit = true := by
  intro c hc
  exact natDecimalAux_digits n [] (by intro c hc; cases hc) c hc

/-- Case-analysis principle for run: to prove P of the result, prove P of
    the literal outcome record of each of the eleven return sites, under
    that site's path condition. -/
theorem run_cases (argv : List String) (os : OS) (P : Result → Prop)
    (husage : argv.length < 3 →
      P { events := [], stderrLines := [usageLine argv], stdoutLines := [],
          exitCode := some 1, file := .unchanged, fileOpen := false })
    (hforkfail : 3 ≤ argv.length → os.forkResult < 0 →
      P { events := [.forkCall], stderrLines := [perrorLine "fork" os],
          stdoutLines := [], exitCode := some 1, file := .unchanged,
          fileOpen := false })
    (hparent : 3 ≤ argv.length → 0 < os.forkResult →
      P { events := [.forkCall], stderrLines := [], stdoutLines := [],
          exitCode := some 0, file := .unchanged, fileOpen := false })
    (hsetsidfail : 3 ≤ argv.length → os.forkResult = 0 →
      os.setsidResult < 0 →
      P { events := [.forkCall, .setsidCall],
          stderrLines := [perrorLine "setsid" os], stdoutLines := [],
          exitCode := some 1, file := .unchanged, fileOpen := false })
    (hgetsidfail : 3 ≤ argv.length → os.forkResult = 0 →
      0 ≤ os.setsidResult → os.getsidResult < 0 →
      P { events := [.forkCall, .setsidCall, .getsidCall],
          stderrLines := [perrorLine "getsid" os], stdoutLines := [],
          exitCode := some 1, file := .unchanged, fileOpen := false })
    (hfopenfail : 3 ≤ argv.length → os.forkResult = 0 →
      0 ≤ os.setsidResult → 0 ≤ os.getsidResult → os.fopenOk = false →
      P { events := [.forkCall, .setsidCall, .getsidCall, .fopenCall],
          stderrLines := [perrorLine "fopen session file" os],
          stdoutLines := [], exitCode := some 1, file := .unchanged,
          fileOpen := false })
    (hfprintffail : 3 ≤ argv.length → os.forkResult = 0 →
      0 ≤ os.setsidResult → 0 ≤ os.getsidResult → os.fopenOk = true →
      os.fprintfOk = false →
      P { events := [.forkCall, .setsidCall, .getsidCall, .fopenCall,
                     .fprintfCall, .fcloseCall],
          stderrLines := [perrorLine "fprintf session file" os],
          stdoutLines := [], exitCode := some 1, file := .incompleteWrite,
          fileOpen := false })
    (hfflushfail : 3 ≤ argv.length → os.forkResult = 0 →
      0 ≤ os.setsidResult → 0 ≤ os.getsidResult → os.fopenOk = true →
      os.fprintfOk = true → os.fflushOk = false →
      P { events := [.forkCall, .setsidCall, .getsidCall, .fopenCall,
                     .fprintfCall, .fflushCall, .fcloseCall],
          stderrLines := [perrorLine "fflush session file" os],
          stdoutLines := [], exitCode := some 1, file := .incompleteWrite,
          fileOpen := false })
    (hfclosefail : 3 ≤ argv.length → os.forkResult = 0 →
      0 ≤ os.setsidResult → 0 ≤ os.getsidResult → os.fopenOk = true →
      os.fprintfOk = true → os.fflushOk = true → os.fcloseOk = false →
      P { events := [.forkCall, .setsidCall, .getsidCall, .fopenCall,
                     .fprintfCall, .fflushCall, .fcloseCall],
          stderrLines := [perrorLine "fclose session file" os],
          stdoutLines := [], exitCode := some 1,
          file := .written (intDecimal os.getsidResult ++ "\n"),
          fileOpen := false })
    (hexec : 3 ≤ argv.length → os.forkResult = 0 →
      0 ≤ os.setsidResult → 0 ≤ os.getsidResult → os.fopenOk = true →
      os.fprintfOk = true → os.fflushOk = true → os.fcloseOk = true →
      os.execOk = true →
      P { events := [.forkCall, .setsidCall, .getsidCall, .fopenCall,
                     .fprintfCall, .fflushCall, .fcloseCall,
                     .execCall (argv.getD 2 "") (argv.drop 2) true],
          stderrLines := [], stdoutLines := [], exitCode := none,
          file := .written (intDecimal os.getsidResult ++ "\n"),
          fileOpen := false })
    (hexecfail : 3 ≤ argv.length → os.forkResult = 0 →
      0 ≤ os.setsidResult → 0 ≤ os.getsidResult → os.fopenOk = true →
      os.fprintfOk = true → os.fflushOk = true → os.fcloseOk = true →
      os.execOk = false →
      P { events := [.forkCall, .setsidCall, .getsidCall, .fopenCall,
                     .fprintfCall, .fflushCall, .fcloseCall,
                     .execCall (argv.getD 2 "") (argv.drop 2) true],
          stderrLines := [perrorLine "execvp" os], stdoutLines := [],
          exitCode := some 1,
          file := .written (intDecimal os.getsidResult ++ "\n"),
          fileOpen := false }) :
    P (run argv os) := by
  unfold run
  by_cases h1 : argv.length < 3
  · rw [if_pos h1]; exact husage h1
  rw [if_neg h1]
  by_cases h2 : os.forkResult < 0
  · rw [if_pos h2]; exact hforkfail (by omega) h2
  rw [if_neg h2]
  by_cases h3 : 0 < os.forkResult
  · rw [if_pos h3]; exact hparent (by omega) h3
  rw [if_neg h3]
  by_cases h4 : os.setsidResult < 0
  · rw [if_pos h4]; exact hsetsidfail (by omega) (by omega) h4
  rw [if_neg h4]
  by_cases h5 : os.getsidResult < 0
  · rw [if_pos h5]; exact hgetsidfail (by omega) (by omega) (by omega) h5
  rw [if_neg h5]
  by_cases h6 : os.fopenOk = false
  · rw [if_pos h6]
    exact hfopenfail (by omega) (by omega) (by omega) (by omega) h6
  rw [if_neg h6]
  rw [Bool.not_eq_false] at h6
  by_cases h7 : os.fprintfOk = false
  · rw [if_pos h7]
    exact hfprintffail (by omega) (by omega) (by omega) (by omega) h6 h7
  rw [if_neg h7]
  rw [Bool.not_eq_false] at h7
  by_cases h8 : os.fflushOk = false
  · rw [if_pos h8]
    exact hfflushfail (by omega) (by omega) (by omega) (by omega) h6 h7 h8
  rw [if_neg h8]
  rw [Bool.not_eq_false] at h8
  by_cases h9 : os.fcloseOk = false
  · rw [if_pos h9]
    exact hfclosefail (by omega) (by omega) (by omega) (by omega) h6 h7 h8 h9
  rw [if_neg h9]
  rw [Bool.not_eq_false] at h9
  by_cases h10 : os.execOk = true
  · rw [if_pos h10]
    exact hexec (by omega) (by omega) (by omega) (by omega) h6 h7 h8 h9 h10
  · rw [if_neg h10]
    rw [Bool.not_eq_true] at h10
    exact hexecfail (by omega) (by omega) (by omega) (by omega) h6 h7 h8 h9 h10

/-- Claim C10: in every branch, success or failure, the program itself
    writes nothing to standard output; all diagnostics go to the error
    stream. -/
theorem run_stdout_empty (argv : List String) (os : OS) :
    (run argv os).stdoutLines = [] := by
  refine run_cases argv os (fun r => r.stdoutLines = []) ?_ ?_ ?_ ?_ ?_ ?_ ?_
    ?_ ?_ ?_ ?_ <;> intros <;> rfl

/-- Claim C3: with fewer than the two required arguments the program
    writes a usage message to the error stream, exits with status 1, and
    performs no fork and no file creation or writes. -/
theorem usage_error_no_fork (argv : List String) (os : OS)
    (h : argv.length < 3) :
    (run argv os).exitCode = some 1 ∧
    (run argv os).stderrLines = [usageLine argv] ∧
    (run argv os).events = [] ∧
    (run argv os).file = FileState.unchanged := by
  unfold run
  rw [if_pos h]
  exact ⟨rfl, rfl, rfl, rfl⟩

/-- Witness for C3 at a two-element argument vector. -/
theorem usage_error_no_fork_w :
    (run ["setsid", "sess.txt"] okOS).exitCode = some 1 ∧
    (run ["setsid", "sess.txt"] okOS).stderrLines =
      [usageLine ["setsid", "sess.txt"]] ∧
    (run ["setsid", "sess.txt"] okOS).events = [] ∧
    (run ["setsid", "sess.txt"] okOS).file = FileState.unchanged :=
  usage_error_no_fork ["setsid", "sess.txt"] okOS (by decide)

/-- Claim C4: when fork succeeds, the parent branch exits immediately
    with status 0 after the fork call, with no further events, no output
    on either stream, and the file untouched — regardless of every other
    oracle field, i.e. independent of what happens in the child. -/
theorem parent_exits_zero (argv : List String) (os : OS)
    (hargs : 3 ≤ argv.length) (hfork : 0 < os.forkResult) :
    (run argv os).exitCode = some 0 ∧
    (run argv os).events = [Ev.forkCall] ∧
    (run argv os).stderrLines = [] ∧
    (run argv os).stdoutLines = [] ∧
    (run argv os).file = FileState.unchanged := by
  unfold run
  rw [if_neg (by omega), if_neg (by omega), if_pos hfork]
  exact ⟨rfl, rfl, rfl, rfl, rfl⟩

/-- Witness for C4 with fork returning child pid 7 and, notably, an
    oracle whose child-side execvp would fail. -/
theorem parent_exits_zero_w :
    (run okArgv { parentOS with execOk := false }).exitCode = some 0 ∧
    (run okArgv { parentOS with execOk := false }).events = [Ev.forkCall] ∧
    (run okArgv { parentOS with execOk := false }).stderrLines = [] ∧
    (run okArgv { parentOS with execOk := false }).stdoutLines = [] ∧
    (run okArgv { parentOS with execOk := false }).file =
      FileState.unchanged :=
  parent_exits_zero okArgv { parentOS with execOk := false }
    (by decide) (by decide)

/-- Claim C1: after a successful run (enough arguments; fork, setsid,
    getsid, open, write, flush and close all succeed), the session file
    holds exactly the decimal text of the non-negative session id that
    getsid returned, followed by one newline and nothing else (every
    character before the newline is a digit), and the file is closed. -/
theorem session_file_single_line (argv : List String) (os : OS)
    (hargs : 3 ≤ argv.length) (hfork : os.forkResult = 0)
    (hsetsid : 0 ≤ os.setsidResult) (hgetsid : 0 ≤ os.getsidResult)
    (hopen : os.fopenOk = true) (hwrite : os.fprintfOk = true)
    (hflush : os.fflushOk = true) (hclose : os.fcloseOk = true) :
    (run argv os).file =
      FileState.written (natDecimal os.getsidResult.toNat ++ "\n") ∧
    (∀ c ∈ (natDecimal os.getsidResult.toNat).data, c.isDigit = true) ∧
    (run argv os).fileOpen = false := by
  have hdec : intDecimal os.getsidResult = natDecimal os.getsidResult.toNat := by
    unfold intDecimal
    rw [if_neg (by omega)]
  refine run_cases argv os (fun r =>
      r.file = FileState.written (natDecimal os.getsidResult.toNat ++ "\n") ∧
      (∀ c ∈ (natDecimal os.getsidResult.toNat).data, c.isDigit = true) ∧
      r.fileOpen = false) ?_ ?_ ?_ ?_ ?_ ?_ ?_ ?_ ?_ ?_ ?_
  · intro h; exfalso; omega
  · intro _ h; exfalso; omega
  · intro _ h; exfalso; omega
  · intro _ _ h; exfalso; omega
  · intro _ _ _ h; exfalso; omega
  · intro _ _ _ _ h; rw [hopen] at h; exact Bool.noConfusion h
  · intro _ _ _ _ _ h; rw [hwrite] at h; exact Bool.noConfusion h
  · intro _ _ _ _ _ _ h; rw [hflush] at h; exact Bool.noConfusion h
  · intro _ _ _ _ _ _ _ h; rw [hclose] at h; exact Bool.noConfusion h
  · intro _ _ _ _ _ _ _ _ _
    exact ⟨by rw [hdec], natDecimal_digits _, rfl⟩
  · intro _ _ _ _ _ _ _ _ _
    exact ⟨by rw [hdec], natDecimal_digits _, rfl⟩

/-- Witness for C1 with session id 42: the file holds the two digits of
    42 and a newline. -/
theorem session_file_single_line_w :
    (run okArgv okOS).file =
      FileState.written (natDecimal okOS.getsidResult.toNat ++ "\n") ∧
    (∀ c ∈ (natDecimal okOS.getsidResult.toNat).data, c.isDigit = true) ∧
    (run okArgv okOS).fileOpen = false :=
  session_file_single_line okArgv okOS (by decide) rfl (by decide)
    (by decide) rfl rfl rfl rfl

/-- Claim C2: whenever an exec is attempted at all, the trace is exactly
    fork, setsid, getsid, fopen, fprintf, fflush, fclose and then the
    execvp call — so the session file is completely written, flushed and
    closed before any image-replacement attempt — and at that point the
    file holds the decimal text of the valid (non-negative) session id.
    This covers in particular the case where execvp then fails. -/
theorem write_precedes_exec (argv : List String) (os : OS)
    (h : execAttempted (run argv os) = true) :
    (run argv os).events =
      [Ev.forkCall, Ev.setsidCall, Ev.getsidCall, Ev.fopenCall,
       Ev.fprintfCall, Ev.fflushCall, Ev.fcloseCall,
       Ev.execCall (argv.getD 2 "") (argv.drop 2) true] ∧
    (run argv os).file =
      FileState.written (intDecimal os.getsidResult ++ "\n") ∧
    0 ≤ os.getsidResult := by
  refine run_cases argv os (fun r => execAttempted r = true →
      r.events =
        [Ev.forkCall, Ev.setsidCall, Ev.getsidCall, Ev.fopenCall,
         Ev.fprintfCall, Ev.fflushCall, Ev.fcloseCall,
         Ev.execCall (argv.getD 2 "") (argv.drop 2) true] ∧
      r.file = FileState.written (intDecimal os.getsidResult ++ "\n") ∧
      0 ≤ os.getsidResult) ?_ ?_ ?_ ?_ ?_ ?_ ?_ ?_ ?_ ?_ ?_ h
  · intro _ hx; exact absurd hx (by simp [execAttempted, isExec])
  · intro _ _ hx; exact absurd hx (by simp [execAttempted, isExec])
  · intro _ _ hx; exact absurd hx (by simp [execAttempted, isExec])
  · intro _ _ _ hx; exact absurd hx (by simp [execAttempted, isExec])
  · intro _ _ _ _ hx; exact absurd hx (by simp [execAttempted, isExec])
  · intro _ _ _ _ _ hx; exact absurd hx (by simp [execAttempted, isExec])
  · intro _ _ _ _ _ _ hx; exact absurd hx (by simp [execAttempted, isExec])
  · intro _ _ _ _ _ _ _ hx
    exact absurd hx (by simp [execAttempted, isExec])
  · intro _ _ _ _ _ _ _ _ hx
    exact absurd hx (by simp [execAttempted, isExec])
  · intro _ _ _ hg _ _ _ _ _ _; exact ⟨rfl, rfl, hg⟩
  · intro _ _ _ hg _ _ _ _ _ _; exact ⟨rfl, rfl, hg⟩

/-- Witness for C2: with execvp failing (command not resolvable) and
    everything earlier succeeding, the exec attempt is the last event and
    the session file already holds 42 and a newline. -/
theorem write_precedes_exec_w :
    (run okArgv noExecOS).events =
      [Ev.forkCall, Ev.setsidCall, Ev.getsidCall, Ev.fopenCall,
       Ev.fprintfCall, Ev.fflushCall, Ev.fcloseCall,
       Ev.execCall (okArgv.getD 2 "") (okArgv.drop 2) true] ∧
    (run okArgv noExecOS).file =
      FileState.written (intDecimal noExecOS.getsidResult ++ "\n") ∧
    0 ≤ noExecOS.getsidResult :=
  write_precedes_exec okArgv noExecOS (by decide)

/-- Claim C5: every failure path exits with status 1 — whenever anything
    was written to the error stream the exit code is 1 — the only exit
    codes the program ever produces are 0, 1 or none (image replaced),
    and no system call is ever retried (no event repeats in the trace). -/
theorem uniform_exit_status (argv : List String) (os : OS) :
    ((run argv os).stderrLines ≠ [] → (run argv os).exitCode = some 1) ∧
    ((run argv os).exitCode = none ∨ (run argv os).exitCode = some 0 ∨
      (run argv os).exitCode = some 1) ∧
    (run argv os).events.Nodup := by
  refine run_cases argv os (fun r =>
      (r.stderrLines ≠ [] → r.exitCode = some 1) ∧
      (r.exitCode = none ∨ r.exitCode = some 0 ∨ r.exitCode = some 1) ∧
      r.events.Nodup) ?_ ?_ ?_ ?_ ?_ ?_ ?_ ?_ ?_ ?_ ?_ <;>
    intros <;>
    refine ⟨?_, ?_, ?_⟩ <;>
    simp

/-- Witness for C5: a failed fork exits with status 1. -/
theorem uniform_exit_status_w :
    (run okArgv forkFailOS).exitCode = some 1 :=
  (uniform_exit_status okArgv forkFailOS).1 (by decide)

/-- Claim C6: if the file stage is reached (child, setsid and getsid ok)
    and any of open, write, flush or close fails, the child exits with
    status 1, never attempts image replacement, and the single error-stream
    line carries the underlying system error description. -/
theorem fileio_failure (argv : List String) (os : OS)
    (hargs : 3 ≤ argv.length) (hfork : os.forkResult = 0)
    (hsetsid : 0 ≤ os.setsidResult) (hgetsid : 0 ≤ os.getsidResult)
    (hfail : ¬(os.fopenOk = true ∧ os.fprintfOk = true ∧
               os.fflushOk = true ∧ os.fcloseOk = true)) :
    (run argv os).exitCode = some 1 ∧
    execAttempted (run argv os) = false ∧
    (∃ label, (run argv os).stderrLines = [label ++ ": " ++ os.sysErrMsg]) := by
  refine run_cases argv os (fun r =>
      r.exitCode = some 1 ∧
      execAttempted r = false ∧
      (∃ label, r.stderrLines = [label ++ ": " ++ os.sysErrMsg]))
    ?_ ?_ ?_ ?_ ?_ ?_ ?_ ?_ ?_ ?_ ?_
  · intro h; exfalso; omega
  · intro _ h; exfalso; omega
  · intro _ h; exfalso; omega
  · intro _ _ h; exfalso; omega
  · intro _ _ _ h; exfalso; omega
  · intro _ _ _ _ _
    exact ⟨rfl, by simp [execAttempted, isExec], "fopen session file", rfl⟩
  · intro _ _ _ _ _ _
    exact ⟨rfl, by simp [execAttempted, isExec], "fprintf session file", rfl⟩
  · intro _ _ _ _ _ _ _
    exact ⟨rfl, by simp [execAttempted, isExec], "fflush session file", rfl⟩
  · intro _ _ _ _ _ _ _ _
    exact ⟨rfl, by simp [execAttempted, isExec], "fclose session file", rfl⟩
  · intro _ _ _ _ h6 h7 h8 h9 _; exact absurd ⟨h6, h7, h8, h9⟩ hfail
  · intro _ _ _ _ h6 h7 h8 h9 _; exact absurd ⟨h6, h7, h8, h9⟩ hfail

/-- Witness for C6: an unopenable session file (for example a missing or
    unwritable parent directory) exits 1 without an exec attempt and with
    the system error text on the error stream. -/
theorem fileio_failure_w :
    (run okArgv badOpenOS).exitCode = some 1 ∧
    execAttempted (run okArgv badOpenOS) = false ∧
    (∃ label, (run okArgv badOpenOS).stderrLines =
      [label ++ ": " ++ badOpenOS.sysErrMsg]) :=
  fileio_failure okArgv badOpenOS (by decide) rfl (by decide) (by decide)
    (by decide)

/-- Claim C7: the execvp call receives the command name followed by the
    caller-supplied arguments, in order and unmodified, as the new argument
    vector, with path-search resolution (the execvp flavour of exec). -/
theorem exec_forwards_argv (p f c : String) (rest : List String) (os : OS)
    (hfork : os.forkResult = 0) (hsetsid : 0 ≤ os.setsidResult)
    (hgetsid : 0 ≤ os.getsidResult) (hopen : os.fopenOk = true)
    (hwrite : os.fprintfOk = true) (hflush : os.fflushOk = true)
    (hclose : os.fcloseOk = true) :
    Ev.execCall c (c :: rest) true ∈ (run (p :: f :: c :: rest) os).events := by
  refine run_cases (p :: f :: c :: rest) os
    (fun r => Ev.execCall c (c :: rest) true ∈ r.events)
    ?_ ?_ ?_ ?_ ?_ ?_ ?_ ?_ ?_ ?_ ?_
  · intro h; exfalso; simp only [List.length_cons] at h; omega
  · intro _ h; exfalso; omega
  · intro _ h; exfalso; omega
  · intro _ _ h; exfalso; omega
  · intro _ _ _ h; exfalso; omega
  · intro _ _ _ _ h; rw [hopen] at h; exact Bool.noConfusion h
  · intro _ _ _ _ _ h; rw [hwrite] at h; exact Bool.noConfusion h
  · intro _ _ _ _ _ _ h; rw [hflush] at h; exact Bool.noConfusion h
  · intro _ _ _ _ _ _ _ h; rw [hclose] at h; exact Bool.noConfusion h
  · intro _ _ _ _ _ _ _ _ _; simp
  · intro _ _ _ _ _ _ _ _ _; simp

/-- Witness for C7: launching echo with one argument passes exactly
    echo followed by that argument. -/
theorem exec_forwards_argv_w :
    Ev.execCall "echo" ("echo" :: ["hello"]) true ∈
      (run ("setsid" :: "sess.txt" :: "echo" :: ["hello"]) okOS).events :=
  exec_forwards_argv "setsid" "sess.txt" "echo" ["hello"] okOS rfl
    (by decide) (by decide) rfl rfl rfl rfl

/-- Claim C8: the session file is opened exactly when the argument check,
    the fork (child side), setsid and getsid have all succeeded; and in
    every run that never calls fopen the file is untouched — so usage
    errors, fork failures, setsid failures and getsid failures leave the
    filesystem unchanged. -/
theorem fopen_only_after_sid (argv : List String) (os : OS) :
    (Ev.fopenCall ∈ (run argv os).events ↔
      (3 ≤ argv.length ∧ os.forkResult = 0 ∧
       0 ≤ os.setsidResult ∧ 0 ≤ os.getsidResult)) ∧
    (Ev.fopenCall ∉ (run argv os).events →
      (run argv os).file = FileState.unchanged) := by
  refine run_cases argv os (fun r =>
      (Ev.fopenCall ∈ r.events ↔
        (3 ≤ argv.length ∧ os.forkResult = 0 ∧
         0 ≤ os.setsidResult ∧ 0 ≤ os.getsidResult)) ∧
      (Ev.fopenCall ∉ r.events → r.file = FileState.unchanged))
    ?_ ?_ ?_ ?_ ?_ ?_ ?_ ?_ ?_ ?_ ?_
  · intro h; exact ⟨by simp; omega, fun _ => rfl⟩
  · intro _ h; exact ⟨by simp; omega, fun _ => rfl⟩
  · intro _ h; exact ⟨by simp; omega, fun _ => rfl⟩
  · intro _ _ h; exact ⟨by simp; omega, fun _ => rfl⟩
  · intro _ _ _ h; exact ⟨by simp; omega, fun _ => rfl⟩
  · intro h1 h2 h3 h4 _
    exact ⟨by simp; omega, fun hm => absurd (by simp) hm⟩
  · intro h1 h2 h3 h4 _ _
    exact ⟨by simp; omega, fun hm => absurd (by simp) hm⟩
  · intro h1 h2 h3 h4 _ _ _
    exact ⟨by simp; omega, fun hm => absurd (by simp) hm⟩
  · intro h1 h2 h3 h4 _ _ _ _
    exact ⟨by simp; omega, fun hm => absurd (by simp) hm⟩
  · intro h1 h2 h3 h4 _ _ _ _ _
    exact ⟨by simp; omega, fun hm => absurd (by simp) hm⟩
  · intro h1 h2 h3 h4 _ _ _ _ _
    exact ⟨by simp; omega, fun hm => absurd (by simp) hm⟩

/-- Witness for C8: a setsid failure leaves the session file untouched. -/
theorem fopen_only_after_sid_w :
    (run okArgv setsidFailOS).file = FileState.unchanged :=
  (fopen_only_after_sid okArgv setsidFailOS).2 (by decide)

/-- Claim C9: no trace ever contains two fclose calls, and once fopen has
    succeeded — including the error paths where the write or the flush
    fails, and the path that proceeds to exec — the stream is closed
    exactly once and is not left open. -/
theorem fclose_exactly_once (argv : List String) (os : OS) :
    closeCalls (run argv os).events ≤ 1 ∧
    ((3 ≤ argv.length ∧ os.forkResult = 0 ∧ 0 ≤ os.setsidResult ∧
      0 ≤ os.getsidResult ∧ os.fopenOk = true) →
      (closeCalls (run argv os).events = 1 ∧
       (run argv os).fileOpen = false)) := by
  refine run_cases argv os (fun r =>
      closeCalls r.events ≤ 1 ∧
      ((3 ≤ argv.length ∧ os.forkResult = 0 ∧ 0 ≤ os.setsidResult ∧
        0 ≤ os.getsidResult ∧ os.fopenOk = true) →
        (closeCalls r.events = 1 ∧ r.fileOpen = false)))
    ?_ ?_ ?_ ?_ ?_ ?_ ?_ ?_ ?_ ?_ ?_
  · intro h
    exact ⟨Nat.zero_le 1, fun hc => absurd hc.1 (by omega)⟩
  · intro _ h
    exact ⟨Nat.zero_le 1, fun hc => absurd hc.2.1 (by omega)⟩
  · intro _ h
    exact ⟨Nat.zero_le 1, fun hc => absurd hc.2.1 (by omega)⟩
  · intro _ _ h
    exact ⟨Nat.zero_le 1, fun hc => absurd hc.2.2.1 (by omega)⟩
  · intro _ _ _ h
    exact ⟨Nat.zero_le 1, fun hc => absurd hc.2.2.2.1 (by omega)⟩
  · intro _ _ _ _ h
    refine ⟨Nat.zero_le 1, fun hc => ?_⟩
    rw [hc.2.2.2.2] at h
    exact Bool.noConfusion h
  · intro _ _ _ _ _ _; exact ⟨Nat.le_refl 1, fun _ => ⟨rfl, rfl⟩⟩
  · intro _ _ _ _ _ _ _; exact ⟨Nat.le_refl 1, fun _ => ⟨rfl, rfl⟩⟩
  · intro _ _ _ _ _ _ _ _; exact ⟨Nat.le_refl 1, fun _ => ⟨rfl, rfl⟩⟩
  · intro _ _ _ _ _ _ _ _ _; exact ⟨Nat.le_refl 1, fun _ => ⟨rfl, rfl⟩⟩
  · intro _ _ _ _ _ _ _ _ _; exact ⟨Nat.le_refl 1, fun _ => ⟨rfl, rfl⟩⟩

/-- Witness for C9: with a failing fflush, the opened stream is closed
    exactly once and not left open. -/
theorem fclose_exactly_once_w :
    closeCalls (run okArgv flushFailOS).events = 1 ∧
    (run okArgv flushFailOS).fileOpen = false :=
  (fclose_exactly_once okArgv flushFailOS).2 (by decide)

end Setsid
